import Mathlib

/-!
Shallow embedding of the pyTrivia client (src/pytrivia/client.py,
src/pytrivia/question.py, src/pytrivia/exceptions.py).

The network is modelled as an oracle `net : String → HttpResponse` that maps a
request URL to the HTTP response the service would return for it.  Python
exceptions become an `Exc` inductive; a raising computation returns
`Except Exc α`.  `get_questions` additionally returns the final value of the
client token field and the ordered list of URLs it requested, so that
statements about token storage and about the number and order of network calls
can be made.
-/

namespace PyTrivia

/-- Model of Python `html.unescape` restricted to the core named entities
(`&amp;` `&lt;` `&gt;` `&quot;`); every other character is copied unchanged.
The library function handles many more entities, but only these occur in the
inputs the claims evaluate on. -/
def htmlUnescapeList : List Char → List Char
  | '&' :: 'a' :: 'm' :: 'p' :: ';' :: rest => '&' :: htmlUnescapeList rest
  | '&' :: 'l' :: 't' :: ';' :: rest => '<' :: htmlUnescapeList rest
  | '&' :: 'g' :: 't' :: ';' :: rest => '>' :: htmlUnescapeList rest
  | '&' :: 'q' :: 'u' :: 'o' :: 't' :: ';' :: rest => '"' :: htmlUnescapeList rest
  | c :: rest => c :: htmlUnescapeList rest
  | [] => []

/-- `html.unescape` on strings. -/
def htmlUnescape (s : String) : String :=
  String.mk (htmlUnescapeList s.data)

/-- Model of Python `str.capitalize` (ASCII): first character upper-cased,
every remaining character lower-cased.  The empty string is unchanged. -/
def pyCapitalize (s : String) : String :=
  match s.data with
  | [] => ""
  | c :: cs => String.mk (c.toUpper :: cs.map Char.toLower)

/-- A raw question record, as found in the `results` list of the service
response (the keyword arguments of `Question.__init__`). -/
structure RawQuestion where
  category : String
  type : String
  difficulty : String
  question : String
  correct_answer : String
  incorrect_answers : List String
deriving DecidableEq

/-- The `Question` value object (question.py). -/
structure Question where
  category : String
  type : String
  difficulty : String
  question : String
  correct_answer : String
  incorrect_answers : List String
deriving DecidableEq

/-- `Question.__init__` (question.py lines 56-61): `category` kept as is,
`type` and `difficulty` capitalized, the text fields HTML-entity-decoded. -/
def Question.ofRecord (r : RawQuestion) : Question :=
  { category := r.category
    type := pyCapitalize r.type
    difficulty := pyCapitalize r.difficulty
    question := htmlUnescape r.question
    correct_answer := htmlUnescape r.correct_answer
    incorrect_answers := r.incorrect_answers.map htmlUnescape }

/-- The exceptions of exceptions.py, plus Python `TypeError` used by the
argument validation in `Client.get_questions`.  `UnexpectedResponseCode` is
constructed with `str(response_code)`, so its payload is a string. -/
inductive Exc where
  | TypeError (message : String)
  | NoResults
  | InvalidParameter
  | TokenNotFound
  | TokenEmpty
  | UnexpectedResponseCode (code : String)
  | HttpError (status_code : Int) (message : String)
deriving DecidableEq

/-- The parsed JSON document of a service response, restricted to the fields
the client reads: `response_code`, `results` (question endpoint) and `token`
(token endpoint). -/
structure Doc where
  response_code : Int
  results : List RawQuestion
  token : String
deriving DecidableEq

/-- An HTTP response as seen through the `requests` library: status code,
reason text, and the parsed JSON body (bodies that fail to parse are outside
the claims and are not modelled). -/
structure HttpResponse where
  status_code : Int
  reason : String
  body : Doc
deriving DecidableEq

/-- The service response-code inspection of `Client._request_resource`
(client.py lines 291-301). -/
def checkResponseCode (d : Doc) : Except Exc Doc :=
  if d.response_code = 1 then .error .NoResults
  else if d.response_code = 2 then .error .InvalidParameter
  else if d.response_code = 3 then .error .TokenNotFound
  else if d.response_code = 4 then .error .TokenEmpty
  else if d.response_code ≠ 0 then
    .error (.UnexpectedResponseCode (toString d.response_code))
  else .ok d

/-- `Client._request_resource` (client.py lines 283-302), given the HTTP
response the network returned for the url: non-200 status raises `HttpError`
with the status code and reason; otherwise the body is returned, after the
response-code inspection when `check` is true. -/
def request_resource (resp : HttpResponse) (check : Bool) : Except Exc Doc :=
  if resp.status_code ≠ 200 then .error (.HttpError resp.status_code resp.reason)
  else if check then checkResponseCode resp.body
  else .ok resp.body

/-- The mutable state of a constructed `Client`: the session token and the
category table loaded at construction (a name-to-id association list standing
for the Python dict `_categories_and_ids`). -/
structure Client where
  token : String
  categories_and_ids : List (String × Int)
deriving DecidableEq

/-- `Client.MAIN_URL`. -/
def MAIN_URL : String := "https://opentdb.com/"

/-- `Client.API_URL`. -/
def API_URL : String := MAIN_URL ++ "api.php"

/-- `Client.TOKEN_URL`. -/
def TOKEN_URL : String := MAIN_URL ++ "api_token.php"

/-- The fixed difficulty enumeration, set at construction
(`self._difficulties`). -/
def DIFFICULTIES : List String := ["easy", "medium", "hard"]

/-- The fixed type enumeration, set at construction (`self._types`). -/
def TYPES : List String := ["multiple", "boolean"]

/-- The Python value passed as the `number` argument of `get_questions`:
either an integer or some value that is not an integer. -/
inductive NumberArg where
  | int (n : Int)
  | notInt
deriving DecidableEq

/-- Message of the `TypeError` for an invalid `number` (quotes of the source
message elided). -/
def numberErrorMessage : String :=
  "Parameter number must be an int between 1 and 50"

/-- Message of the `TypeError` for an unknown `category` (quotes elided). -/
def categoryErrorMessage : String :=
  "Parameter category must be an existing category. Call Client.category to check available categories."

/-- Message of the `TypeError` for an invalid `difficulty` (quotes elided). -/
def difficultyErrorMessage : String :=
  "Parameter difficulty must be one of: " ++ String.intercalate ", " DIFFICULTIES

/-- Message of the `TypeError` for an invalid `_type` (quotes elided). -/
def typeErrorMessage : String :=
  "Parameter _type must be one of: " ++ String.intercalate ", " TYPES

/-- The `category` branch of `get_questions` (client.py lines 156-163):
`None` becomes the empty query fragment, a known category name resolves to
`&category=<id>`, anything else raises `TypeError`. -/
def resolveCategory (c : Client) : Option String → Except Exc String
  | none => .ok ""
  | some cat =>
    match c.categories_and_ids.lookup cat with
    | some i => .ok ("&category=" ++ toString i)
    | none => .error (.TypeError categoryErrorMessage)

/-- The `difficulty` branch of `get_questions` (client.py lines 164-170). -/
def resolveDifficulty : Option String → Except Exc String
  | none => .ok ""
  | some d =>
    if d ∈ DIFFICULTIES then .ok ("&difficulty=" ++ d)
    else .error (.TypeError difficultyErrorMessage)

/-- The `_type` branch of `get_questions` (client.py lines 171-177). -/
def resolveType : Option String → Except Exc String
  | none => .ok ""
  | some t =>
    if t ∈ TYPES then .ok ("&type=" ++ t)
    else .error (.TypeError typeErrorMessage)

/-- The question url built at client.py line 179, still missing the token
value: `'%s?amount=%i%s%s%s&token=' % (API_URL, number, category, difficulty,
_type)`. -/
def apiUrl (n : Int) (categoryPart difficultyPart typePart : String) : String :=
  API_URL ++ "?amount=" ++ toString n ++ categoryPart ++ difficultyPart ++ typePart ++ "&token="

/-- `Client._get_token` (client.py lines 194-222): builds the token url
(reset mode embeds the current token), performs the request through
`_request_resource`, and returns the `token` field of the document.  Also
returns the list of urls requested. -/
def get_token (net : String → HttpResponse) (c : Client) (reset : Bool) :
    Except Exc String × List String :=
  let token_url :=
    if reset then TOKEN_URL ++ "?command=reset&token=" ++ c.token
    else TOKEN_URL ++ "?command=request"
  match request_resource (net token_url) true with
  | .ok doc => (.ok doc.token, [token_url])
  | .error e => (.error e, [token_url])

instance {ε α : Type _} [DecidableEq ε] [DecidableEq α] : DecidableEq (Except ε α) := fun x y =>
  match x, y with
  | .error e, .error f =>
    if h : e = f then .isTrue (congrArg Except.error h)
    else .isFalse (fun hh => h (by injection hh))
  | .error _, .ok _ => .isFalse (fun hh => Except.noConfusion hh)
  | .ok _, .error _ => .isFalse (fun hh => Except.noConfusion hh)
  | .ok a, .ok b =>
    if h : a = b then .isTrue (congrArg Except.ok h)
    else .isFalse (fun hh => h (by injection hh))

/-- Outcome of a `get_questions` call: the returned value or the exception,
the final value of the client token field, and the ordered list of urls
requested over the network. -/
structure GQResult where
  result : Except Exc (List Question)
  token : String
  calls : List String
deriving DecidableEq

/-- The try/except token handling of `get_questions` (client.py lines
181-192), after validation and url building.  A first `TokenNotFound` is
recovered by a request-mode token call, a first `TokenEmpty` by a reset-mode
token call; the stored token is replaced exactly when the token call
succeeds, and the question request is reissued once with the new token.  Any
other outcome of the first attempt, and any outcome of the second attempt,
is final. -/
def get_questions_fetch (net : String → HttpResponse) (c : Client)
    (api_url : String) : GQResult :=
  match request_resource (net (api_url ++ c.token)) true with
  | .ok json =>
      ⟨.ok (json.results.map Question.ofRecord), c.token, [api_url ++ c.token]⟩
  | .error .TokenNotFound =>
      match get_token net c false with
      | (.ok t, tokenCalls) =>
          match request_resource (net (api_url ++ t)) true with
          | .ok json =>
              ⟨.ok (json.results.map Question.ofRecord), t,
                (api_url ++ c.token) :: tokenCalls ++ [api_url ++ t]⟩
          | .error e =>
              ⟨.error e, t, (api_url ++ c.token) :: tokenCalls ++ [api_url ++ t]⟩
      | (.error e, tokenCalls) =>
          ⟨.error e, c.token, (api_url ++ c.token) :: tokenCalls⟩
  | .error .TokenEmpty =>
      match get_token net c true with
      | (.ok t, tokenCalls) =>
          match request_resource (net (api_url ++ t)) true with
          | .ok json =>
              ⟨.ok (json.results.map Question.ofRecord), t,
                (api_url ++ c.token) :: tokenCalls ++ [api_url ++ t]⟩
          | .error e =>
              ⟨.error e, t, (api_url ++ c.token) :: tokenCalls ++ [api_url ++ t]⟩
      | (.error e, tokenCalls) =>
          ⟨.error e, c.token, (api_url ++ c.token) :: tokenCalls⟩
  | .error e => ⟨.error e, c.token, [api_url ++ c.token]⟩

/-- `get_questions` after the `number` validation has passed: the category,
difficulty and type validations of client.py lines 156-177, then the url of
line 179 and the fetch of lines 181-192. -/
def get_questions_validated (net : String → HttpResponse) (c : Client)
    (n : Int) (category difficulty _type : Option String) : GQResult :=
  match resolveCategory c category with
  | .error e => ⟨.error e, c.token, []⟩
  | .ok categoryPart =>
    match resolveDifficulty difficulty with
    | .error e => ⟨.error e, c.token, []⟩
    | .ok difficultyPart =>
      match resolveType _type with
      | .error e => ⟨.error e, c.token, []⟩
      | .ok typePart =>
        get_questions_fetch net c (apiUrl n categoryPart difficultyPart typePart)

/-- `Client.get_questions` (client.py lines 120-192).  The `number` argument
must be an integer with `0 < number <= 50` (client.py lines 153-155), else
`TypeError` is raised before any network call. -/
def get_questions (net : String → HttpResponse) (c : Client)
    (number : NumberArg) (category difficulty _type : Option String) : GQResult :=
  match number with
  | .notInt => ⟨.error (.TypeError numberErrorMessage), c.token, []⟩
  | .int n =>
    if ¬(0 < n ∧ n ≤ 50) then ⟨.error (.TypeError numberErrorMessage), c.token, []⟩
    else get_questions_validated net c n category difficulty _type

/-! ## Step lemmas about `get_questions` -/

theorem get_questions_int_step (net : String → HttpResponse) (c : Client) (n : Int)
    (category difficulty _type : Option String) (h : 0 < n ∧ n ≤ 50) :
    get_questions net c (.int n) category difficulty _type =
      get_questions_validated net c n category difficulty _type := by
  simp [get_questions, not_not_intro h]

theorem get_questions_validated_step (net : String → HttpResponse) (c : Client) (n : Int)
    (category difficulty _type : Option String) (cs ds ts : String)
    (hcat : resolveCategory c category = .ok cs)
    (hdif : resolveDifficulty difficulty = .ok ds)
    (hty : resolveType _type = .ok ts) :
    get_questions_validated net c n category difficulty _type =
      get_questions_fetch net c (apiUrl n cs ds ts) := by
  unfold get_questions_validated
  rw [hcat, hdif, hty]

theorem get_token_request_ok (net : String → HttpResponse) (c : Client) (doc : Doc)
    (h : request_resource (net (TOKEN_URL ++ "?command=request")) true = .ok doc) :
    get_token net c false = (.ok doc.token, [TOKEN_URL ++ "?command=request"]) := by
  simp [get_token, h]

theorem get_token_request_err (net : String → HttpResponse) (c : Client) (e : Exc)
    (h : request_resource (net (TOKEN_URL ++ "?command=request")) true = .error e) :
    get_token net c false = (.error e, [TOKEN_URL ++ "?command=request"]) := by
  simp [get_token, h]

theorem get_token_reset_ok (net : String → HttpResponse) (c : Client) (doc : Doc)
    (h : request_resource (net (TOKEN_URL ++ "?command=reset&token=" ++ c.token)) true = .ok doc) :
    get_token net c true =
      (.ok doc.token, [TOKEN_URL ++ "?command=reset&token=" ++ c.token]) := by
  simp [get_token, h]

theorem get_token_reset_err (net : String → HttpResponse) (c : Client) (e : Exc)
    (h : request_resource (net (TOKEN_URL ++ "?command=reset&token=" ++ c.token)) true = .error e) :
    get_token net c true = (.error e, [TOKEN_URL ++ "?command=reset&token=" ++ c.token]) := by
  simp [get_token, h]

theorem fetch_first_ok (net : String → HttpResponse) (c : Client) (api_url : String) (doc : Doc)
    (h : request_resource (net (api_url ++ c.token)) true = .ok doc) :
    get_questions_fetch net c api_url =
      ⟨.ok (doc.results.map Question.ofRecord), c.token, [api_url ++ c.token]⟩ := by
  unfold get_questions_fetch
  rw [h]

theorem fetch_tnf_recover (net : String → HttpResponse) (c : Client) (api_url : String)
    (t : String) (tokenCalls : List String)
    (hfirst : request_resource (net (api_url ++ c.token)) true = .error .TokenNotFound)
    (htok : get_token net c false = (.ok t, tokenCalls)) :
    get_questions_fetch net c api_url =
      ⟨Except.map (fun j => j.results.map Question.ofRecord)
          (request_resource (net (api_url ++ t)) true),
        t, (api_url ++ c.token) :: tokenCalls ++ [api_url ++ t]⟩ := by
  unfold get_questions_fetch
  rw [hfirst, htok]
  cases hsecond : request_resource (net (api_url ++ t)) true <;>
    simp [Except.map, hsecond]

theorem fetch_tnf_tokfail (net : String → HttpResponse) (c : Client) (api_url : String)
    (e : Exc) (tokenCalls : List String)
    (hfirst : request_resource (net (api_url ++ c.token)) true = .error .TokenNotFound)
    (htok : get_token net c false = (.error e, tokenCalls)) :
    get_questions_fetch net c api_url =
      ⟨.error e, c.token, (api_url ++ c.token) :: tokenCalls⟩ := by
  unfold get_questions_fetch
  rw [hfirst, htok]

theorem fetch_te_recover (net : String → HttpResponse) (c : Client) (api_url : String)
    (t : String) (tokenCalls : List String)
    (hfirst : request_resource (net (api_url ++ c.token)) true = .error .TokenEmpty)
    (htok : get_token net c true = (.ok t, tokenCalls)) :
    get_questions_fetch net c api_url =
      ⟨Except.map (fun j => j.results.map Question.ofRecord)
          (request_resource (net (api_url ++ t)) true),
        t, (api_url ++ c.token) :: tokenCalls ++ [api_url ++ t]⟩ := by
  unfold get_questions_fetch
  rw [hfirst, htok]
  cases hsecond : request_resource (net (api_url ++ t)) true <;>
    simp [Except.map, hsecond]

theorem fetch_te_tokfail (net : String → HttpResponse) (c : Client) (api_url : String)
    (e : Exc) (tokenCalls : List String)
    (hfirst : request_resource (net (api_url ++ c.token)) true = .error .TokenEmpty)
    (htok : get_token net c true = (.error e, tokenCalls)) :
    get_questions_fetch net c api_url =
      ⟨.error e, c.token, (api_url ++ c.token) :: tokenCalls⟩ := by
  unfold get_questions_fetch
  rw [hfirst, htok]

/-! ## Concrete data used by witnesses -/

/-- A concrete client with one category, used by witnesses. -/
def clientA : Client := ⟨"tokA", [("Sports", 21)]⟩

/-- A concrete question record, used by witnesses. -/
def sampleRecord : RawQuestion :=
  ⟨"Sports", "multiple", "easy", "A &amp; B?", "X", ["Y", "Z"]⟩

/-- A network oracle whose question endpoint always succeeds with one
result. -/
def sampleNet : String → HttpResponse :=
  fun _ => ⟨200, "OK", ⟨0, [sampleRecord], ""⟩⟩

/-- A network oracle that answers the first question request of `clientA`
with response code 3 (`TokenNotFound`), hands out the fresh token `"tokB"`
on a request-mode token call, and succeeds elsewhere. -/
def netTNF : String → HttpResponse := fun url =>
  if url = apiUrl 1 "" "" "" ++ "tokA" then ⟨200, "OK", ⟨3, [], ""⟩⟩
  else if url = TOKEN_URL ++ "?command=request" then ⟨200, "OK", ⟨0, [], "tokB"⟩⟩
  else ⟨200, "OK", ⟨0, [], ""⟩⟩

/-- A network oracle that answers every question request of `clientA` with
response code 4 (`TokenEmpty`) and returns the same token `"tokA"` on a
reset-mode token call, so the retry fails again. -/
def netTE : String → HttpResponse := fun url =>
  if url = apiUrl 1 "" "" "" ++ "tokA" then ⟨200, "OK", ⟨4, [], ""⟩⟩
  else if url = TOKEN_URL ++ "?command=reset&token=tokA" then ⟨200, "OK", ⟨0, [], "tokA"⟩⟩
  else ⟨200, "OK", ⟨0, [], ""⟩⟩

/-- A network oracle that answers the first question request of `clientA`
with response code 3 (`TokenNotFound`) and every token call with response
code 2 (`InvalidParameter`), so the token re-acquisition itself fails. -/
def netTokFail : String → HttpResponse := fun url =>
  if url = apiUrl 1 "" "" "" ++ "tokA" then ⟨200, "OK", ⟨3, [], ""⟩⟩
  else ⟨200, "OK", ⟨2, [], ""⟩⟩

/-! ## Claim theorems -/

/-- Claim C9: decoding the raw record
`{category:"Sports", type:"multiple", difficulty:"easy", question:"A &amp; B?",
correct_answer:"X", incorrect_answers:["Y","Z"]}` yields a Question with
category `"Sports"`, type `"Multiple"`, difficulty `"Easy"`, question text
`"A & B?"`, correct answer `"X"` and incorrect answers `["Y","Z"]` in that
order. -/
theorem claim_C9 :
    Question.ofRecord ⟨"Sports", "multiple", "easy", "A &amp; B?", "X", ["Y", "Z"]⟩ =
      ⟨"Sports", "Multiple", "Easy", "A & B?", "X", ["Y", "Z"]⟩ := by
  decide

/-- Claim C8, counterexample: the decoder lower-cases the remainder of `type`
and `difficulty` (Python `str.capitalize`), so a record whose `type` is
`"mUltiple"` decodes to `"Multiple"`, not to `"MUltiple"` as first-letter
upper case with the remainder kept exactly as given would demand. -/
theorem claim_C8_counterexample :
    (Question.ofRecord ⟨"Cat", "mUltiple", "eAsy", "q", "a", []⟩).type = "Multiple" ∧
    (Question.ofRecord ⟨"Cat", "mUltiple", "eAsy", "q", "a", []⟩).difficulty = "Easy" ∧
    ("Multiple" : String) ≠ "MUltiple" ∧ ("Easy" : String) ≠ "EAsy" := by
  decide

/-- Claim C8 as amended: for every record with nonempty `type` and
`difficulty`, the decoded Question carries those strings with the first
character upper-cased and every remaining character lower-cased (the
semantics of Python `str.capitalize`), not with the remainder kept as
given. -/
theorem claim_C8_amended (r : RawQuestion) (c c2 : Char) (cs cs2 : List Char)
    (ht : r.type.data = c :: cs) (hd : r.difficulty.data = c2 :: cs2) :
    (Question.ofRecord r).type = String.mk (c.toUpper :: cs.map Char.toLower) ∧
    (Question.ofRecord r).difficulty = String.mk (c2.toUpper :: cs2.map Char.toLower) := by
  unfold Question.ofRecord pyCapitalize
  rw [ht, hd]
  exact ⟨rfl, rfl⟩

/-- Witness for C8: the amended statement evaluated on a concrete record. -/
theorem claim_C8_witness :
    (Question.ofRecord ⟨"Sports", "multiple", "easy", "Q", "A", []⟩).type = "Multiple" ∧
    (Question.ofRecord ⟨"Sports", "multiple", "easy", "Q", "A", []⟩).difficulty = "Easy" :=
  have h := claim_C8_amended ⟨"Sports", "multiple", "easy", "Q", "A", []⟩
    'm' 'e' "ultiple".data "asy".data rfl rfl
  ⟨h.1.trans (by decide), h.2.trans (by decide)⟩

/-- Claim C3: when the HTTP status is 200 and the response code is checked,
`response_code` 0 succeeds returning the document; 1 raises `NoResults`;
2 raises `InvalidParameter`; 3 raises `TokenNotFound`; 4 raises `TokenEmpty`;
any other integer raises `UnexpectedResponseCode` carrying that integer value
(as its decimal string, the code applies `str` to it). -/
theorem claim_C3 (resp : HttpResponse) (h200 : resp.status_code = 200) :
    (resp.body.response_code = 0 → request_resource resp true = .ok resp.body) ∧
    (resp.body.response_code = 1 → request_resource resp true = .error .NoResults) ∧
    (resp.body.response_code = 2 → request_resource resp true = .error .InvalidParameter) ∧
    (resp.body.response_code = 3 → request_resource resp true = .error .TokenNotFound) ∧
    (resp.body.response_code = 4 → request_resource resp true = .error .TokenEmpty) ∧
    (resp.body.response_code ≠ 0 → resp.body.response_code ≠ 1 →
      resp.body.response_code ≠ 2 → resp.body.response_code ≠ 3 →
      resp.body.response_code ≠ 4 →
      request_resource resp true =
        .error (.UnexpectedResponseCode (toString resp.body.response_code))) := by
  unfold request_resource checkResponseCode
  rw [h200]
  refine ⟨fun h0 => ?_, fun h1 => ?_, fun h2 => ?_, fun h3 => ?_, fun h4 => ?_,
    fun h0 h1 h2 h3 h4 => ?_⟩
  all_goals simp_all

/-- Witness for C3: an unrecognized response code 99 raises
`UnexpectedResponseCode` carrying `"99"`. -/
theorem claim_C3_witness :
    request_resource ⟨200, "OK", ⟨99, [], ""⟩⟩ true =
      .error (.UnexpectedResponseCode "99") :=
  (claim_C3 ⟨200, "OK", ⟨99, [], ""⟩⟩ rfl).2.2.2.2.2
    (by decide) (by decide) (by decide) (by decide) (by decide)

/-- Claim C4, counterexample: a status code of 204, which lies in the 200
range, does not proceed to the body but raises `HttpError`; the code compares
the status against 200 exactly, not against the 2xx range. -/
theorem claim_C4_counterexample :
    (200 : Int) ≤ 204 ∧ (204 : Int) < 300 ∧
    request_resource ⟨204, "No Content", ⟨0, [], ""⟩⟩ true =
      .error (.HttpError 204 "No Content") := by
  decide

/-- Claim C4 as amended: a Transport call raises `HttpError` carrying the
exact status code received and the status reason text if and only if the
status code is not exactly 200; on status 200 it proceeds to the body (the
response-code inspection when checking is on, the parsed document
otherwise). -/
theorem claim_C4_amended (resp : HttpResponse) (check : Bool) :
    (resp.status_code ≠ 200 →
      request_resource resp check = .error (.HttpError resp.status_code resp.reason)) ∧
    (∀ s m, request_resource resp check = .error (.HttpError s m) →
      resp.status_code ≠ 200 ∧ s = resp.status_code ∧ m = resp.reason) ∧
    (resp.status_code = 200 →
      request_resource resp check =
        if check then checkResponseCode resp.body else .ok resp.body) := by
  refine ⟨fun hne => ?_, fun s m hsm => ?_, fun h200 => ?_⟩
  · simp [request_resource, hne]
  · by_cases h : resp.status_code = 200
    · exfalso
      have hx : request_resource resp check =
          if check then checkResponseCode resp.body else .ok resp.body := by
        simp [request_resource, h]
      rw [hx] at hsm
      by_cases hc : check
      · simp only [hc, if_true] at hsm
        unfold checkResponseCode at hsm
        split_ifs at hsm <;> simp_all
      · rw [if_neg hc] at hsm
        exact Except.noConfusion hsm
    · refine ⟨h, ?_, ?_⟩
      all_goals
        rw [request_resource, if_pos h] at hsm
        injection hsm with he
        injection he
        simp_all
  · simp [request_resource, h200]

/-- Witness for C4 as amended: a 404 raises `HttpError 404 "Not Found"`. -/
theorem claim_C4_witness :
    request_resource ⟨404, "Not Found", ⟨0, [], ""⟩⟩ true =
      .error (.HttpError 404 "Not Found") :=
  (claim_C4_amended ⟨404, "Not Found", ⟨0, [], ""⟩⟩ true).1 (by decide)

/-- Claim C1: if the first question-fetch attempt fails with `TokenNotFound`
and the request-mode token call returns the document `doc`, the client stores
`doc.token` as its token and reissues the question request exactly once with
it — the calls are exactly the first question url with the original token, the
request-mode token url, and the question url with the new token — and the
outcome of that single second attempt (success or any failure, including a
second `TokenNotFound`) is returned or propagated unchanged. -/
theorem claim_C1 (net : String → HttpResponse) (c : Client) (n : Int)
    (category difficulty _type : Option String) (cs ds ts : String) (doc : Doc)
    (h1 : 1 ≤ n) (h50 : n ≤ 50)
    (hcat : resolveCategory c category = .ok cs)
    (hdif : resolveDifficulty difficulty = .ok ds)
    (hty : resolveType _type = .ok ts)
    (hfirst : request_resource (net (apiUrl n cs ds ts ++ c.token)) true =
      .error .TokenNotFound)
    (htok : request_resource (net (TOKEN_URL ++ "?command=request")) true = .ok doc) :
    get_questions net c (.int n) category difficulty _type =
      ⟨Except.map (fun j => j.results.map Question.ofRecord)
          (request_resource (net (apiUrl n cs ds ts ++ doc.token)) true),
        doc.token,
        [apiUrl n cs ds ts ++ c.token, TOKEN_URL ++ "?command=request",
          apiUrl n cs ds ts ++ doc.token]⟩ :=
  ((get_questions_int_step net c n category difficulty _type ⟨by omega, h50⟩).trans
    (get_questions_validated_step net c n category difficulty _type cs ds ts
      hcat hdif hty)).trans
    (fetch_tnf_recover net c (apiUrl n cs ds ts) doc.token
      [TOKEN_URL ++ "?command=request"] hfirst
      (get_token_request_ok net c doc htok))

/-- Witness for C1: a concrete run in which the first attempt returns
response code 3, a fresh token `"tokB"` is fetched, stored, and the retry
with `"tokB"` succeeds with an empty result list. -/
theorem claim_C1_witness :
    get_questions netTNF clientA (.int 1) none none none =
      ⟨.ok [], "tokB",
        [apiUrl 1 "" "" "" ++ "tokA", TOKEN_URL ++ "?command=request",
          apiUrl 1 "" "" "" ++ "tokB"]⟩ :=
  (claim_C1 netTNF clientA 1 none none none "" "" "" ⟨0, [], "tokB"⟩
    (by decide) (by decide) rfl rfl rfl (by decide) (by decide)).trans (by decide)

/-- Claim C2: if the first question-fetch attempt fails with `TokenEmpty`
and the reset-mode token call — whose url embeds the existing token — returns
the document `doc`, the client stores `doc.token` and reissues the question
request exactly once; the outcome of that single second attempt (success or
any failure, including a second `TokenEmpty`) is returned or propagated
unchanged. -/
theorem claim_C2 (net : String → HttpResponse) (c : Client) (n : Int)
    (category difficulty _type : Option String) (cs ds ts : String) (doc : Doc)
    (h1 : 1 ≤ n) (h50 : n ≤ 50)
    (hcat : resolveCategory c category = .ok cs)
    (hdif : resolveDifficulty difficulty = .ok ds)
    (hty : resolveType _type = .ok ts)
    (hfirst : request_resource (net (apiUrl n cs ds ts ++ c.token)) true =
      .error .TokenEmpty)
    (htok : request_resource (net (TOKEN_URL ++ "?command=reset&token=" ++ c.token)) true =
      .ok doc) :
    get_questions net c (.int n) category difficulty _type =
      ⟨Except.map (fun j => j.results.map Question.ofRecord)
          (request_resource (net (apiUrl n cs ds ts ++ doc.token)) true),
        doc.token,
        [apiUrl n cs ds ts ++ c.token, TOKEN_URL ++ "?command=reset&token=" ++ c.token,
          apiUrl n cs ds ts ++ doc.token]⟩ :=
  ((get_questions_int_step net c n category difficulty _type ⟨by omega, h50⟩).trans
    (get_questions_validated_step net c n category difficulty _type cs ds ts
      hcat hdif hty)).trans
    (fetch_te_recover net c (apiUrl n cs ds ts) doc.token
      [TOKEN_URL ++ "?command=reset&token=" ++ c.token] hfirst
      (get_token_reset_ok net c doc htok))

/-- Witness for C2: a concrete run in which the first attempt returns
response code 4, the reset-mode call returns the same token, and the single
retry fails again with `TokenEmpty`, which propagates unchanged. -/
theorem claim_C2_witness :
    get_questions netTE clientA (.int 1) none none none =
      ⟨.error .TokenEmpty, "tokA",
        [apiUrl 1 "" "" "" ++ "tokA", TOKEN_URL ++ "?command=reset&token=tokA",
          apiUrl 1 "" "" "" ++ "tokA"]⟩ :=
  (claim_C2 netTE clientA 1 none none none "" "" "" ⟨0, [], "tokA"⟩
    (by decide) (by decide) rfl rfl rfl (by decide) (by decide)).trans (by decide)

/-- Claim C10: if during token recovery the token re-acquisition call itself
fails — on the request-mode path entered by `TokenNotFound` or the reset-mode
path entered by `TokenEmpty` — that failure propagates to the caller, the
stored token field is left unchanged at its previous value, and no further
network call is made after the failed token call. -/
theorem claim_C10 (net : String → HttpResponse) (c : Client) (n : Int)
    (category difficulty _type : Option String) (cs ds ts tokenUrl : String) (eTok : Exc)
    (h1 : 1 ≤ n) (h50 : n ≤ 50)
    (hcat : resolveCategory c category = .ok cs)
    (hdif : resolveDifficulty difficulty = .ok ds)
    (hty : resolveType _type = .ok ts)
    (hcase :
      (request_resource (net (apiUrl n cs ds ts ++ c.token)) true = .error .TokenNotFound ∧
        tokenUrl = TOKEN_URL ++ "?command=request") ∨
      (request_resource (net (apiUrl n cs ds ts ++ c.token)) true = .error .TokenEmpty ∧
        tokenUrl = TOKEN_URL ++ "?command=reset&token=" ++ c.token))
    (htokfail : request_resource (net tokenUrl) true = .error eTok) :
    get_questions net c (.int n) category difficulty _type =
      ⟨.error eTok, c.token, [apiUrl n cs ds ts ++ c.token, tokenUrl]⟩ := by
  rcases hcase with ⟨hfirst, hurl⟩ | ⟨hfirst, hurl⟩ <;> subst hurl
  · exact ((get_questions_int_step net c n category difficulty _type ⟨by omega, h50⟩).trans
      (get_questions_validated_step net c n category difficulty _type cs ds ts
        hcat hdif hty)).trans
      (fetch_tnf_tokfail net c (apiUrl n cs ds ts) eTok
        [TOKEN_URL ++ "?command=request"] hfirst
        (get_token_request_err net c eTok htokfail))
  · exact ((get_questions_int_step net c n category difficulty _type ⟨by omega, h50⟩).trans
      (get_questions_validated_step net c n category difficulty _type cs ds ts
        hcat hdif hty)).trans
      (fetch_te_tokfail net c (apiUrl n cs ds ts) eTok
        [TOKEN_URL ++ "?command=reset&token=" ++ c.token] hfirst
        (get_token_reset_err net c eTok htokfail))

/-- Witness for C10: the first attempt returns response code 3, the
request-mode token call fails with `InvalidParameter`; that failure
propagates and the token field still holds `"tokA"`. -/
theorem claim_C10_witness :
    get_questions netTokFail clientA (.int 1) none none none =
      ⟨.error .InvalidParameter, "tokA",
        [apiUrl 1 "" "" "" ++ "tokA", TOKEN_URL ++ "?command=request"]⟩ :=
  (claim_C10 netTokFail clientA 1 none none none "" "" ""
    (TOKEN_URL ++ "?command=request") .InvalidParameter
    (by decide) (by decide) rfl rfl rfl (.inl ⟨by decide, rfl⟩) (by decide)).trans
    (by decide)

/-- Claim C5: a `number` argument that is not an integer, or an integer
outside `[1, 50]`, makes `get_questions` raise `TypeError` with no network
call and the token unchanged; every integer in `[1, 50]` passes the number
validation, so the call proceeds to the rest of the operation. -/
theorem claim_C5 (net : String → HttpResponse) (c : Client)
    (category difficulty _type : Option String) :
    (get_questions net c .notInt category difficulty _type =
      ⟨.error (.TypeError numberErrorMessage), c.token, []⟩) ∧
    (∀ n : Int, ¬(1 ≤ n ∧ n ≤ 50) →
      get_questions net c (.int n) category difficulty _type =
        ⟨.error (.TypeError numberErrorMessage), c.token, []⟩) ∧
    (∀ n : Int, 1 ≤ n → n ≤ 50 →
      get_questions net c (.int n) category difficulty _type =
        get_questions_validated net c n category difficulty _type) := by
  refine ⟨rfl, fun n hn => ?_, fun n hl hu => ?_⟩
  · have hbad : ¬(0 < n ∧ n ≤ 50) := by omega
    simp [get_questions, hbad]
  · exact get_questions_int_step net c n category difficulty _type ⟨by omega, hu⟩

/-- Witness for C5: `number = 0` raises `TypeError` with no network call,
and `number = 3` passes the number validation. -/
theorem claim_C5_witness :
    (get_questions sampleNet clientA (.int 0) none none none =
      ⟨.error (.TypeError numberErrorMessage), clientA.token, []⟩) ∧
    (get_questions sampleNet clientA (.int 3) none none none =
      get_questions_validated sampleNet clientA 3 none none none) :=
  ⟨(claim_C5 sampleNet clientA none none none).2.1 0 (by decide),
    (claim_C5 sampleNet clientA none none none).2.2 3 (by decide) (by decide)⟩

/-- Claim C6: with a valid `number`, a `category` absent from the category
table, a `difficulty` outside the fixed difficulty enumeration, or a `_type`
outside the fixed type enumeration each raise `TypeError` before any network
call; a category present in the table resolves to the query fragment carrying
its integer id. -/
theorem claim_C6 (net : String → HttpResponse) (c : Client) (n : Int)
    (h1 : 1 ≤ n) (h50 : n ≤ 50) :
    (∀ cat difficulty _type, c.categories_and_ids.lookup cat = none →
      get_questions net c (.int n) (some cat) difficulty _type =
        ⟨.error (.TypeError categoryErrorMessage), c.token, []⟩) ∧
    (∀ category dif _type cs, resolveCategory c category = .ok cs →
      dif ∉ DIFFICULTIES →
      get_questions net c (.int n) category (some dif) _type =
        ⟨.error (.TypeError difficultyErrorMessage), c.token, []⟩) ∧
    (∀ category difficulty ty cs ds, resolveCategory c category = .ok cs →
      resolveDifficulty difficulty = .ok ds → ty ∉ TYPES →
      get_questions net c (.int n) category difficulty (some ty) =
        ⟨.error (.TypeError typeErrorMessage), c.token, []⟩) ∧
    (∀ cat i, c.categories_and_ids.lookup cat = some i →
      resolveCategory c (some cat) = .ok ("&category=" ++ toString i)) := by
  refine ⟨fun cat difficulty _type hnone => ?_, fun category dif _type cs hcat hdif => ?_,
    fun category difficulty ty cs ds hcat hdif hty => ?_, fun cat i hi => ?_⟩
  · rw [get_questions_int_step net c n (some cat) difficulty _type ⟨by omega, h50⟩]
    simp [get_questions_validated, resolveCategory, hnone]
  · rw [get_questions_int_step net c n category (some dif) _type ⟨by omega, h50⟩]
    simp [get_questions_validated, hcat, resolveDifficulty, hdif]
  · rw [get_questions_int_step net c n category difficulty (some ty) ⟨by omega, h50⟩]
    simp [get_questions_validated, hcat, hdif, resolveType, hty]
  · simp [resolveCategory, hi]

/-- Witness for C6: the unknown category `"Nope"` raises `TypeError` with no
network call, and the known category `"Sports"` resolves to its id 21. -/
theorem claim_C6_witness :
    (get_questions sampleNet clientA (.int 1) (some "Nope") none none =
      ⟨.error (.TypeError categoryErrorMessage), clientA.token, []⟩) ∧
    (resolveCategory clientA (some "Sports") = .ok "&category=21") :=
  ⟨(claim_C6 sampleNet clientA 1 (by decide) (by decide)).1 "Nope" none none (by decide),
    (claim_C6 sampleNet clientA 1 (by decide) (by decide)).2.2.2 "Sports" 21 (by decide)⟩

/-- Claim C7: for a valid `number` and valid optional filters, the question
request url embeds exactly that amount (`?amount=<n>`), and when the first
attempt succeeds with document `doc` the call returns one decoded Question
per record of `doc.results`, in order, so the returned list has exactly the
length of the results list. -/
theorem claim_C7 (net : String → HttpResponse) (c : Client) (n : Int)
    (category difficulty _type : Option String) (cs ds ts : String) (doc : Doc)
    (h1 : 1 ≤ n) (h50 : n ≤ 50)
    (hcat : resolveCategory c category = .ok cs)
    (hdif : resolveDifficulty difficulty = .ok ds)
    (hty : resolveType _type = .ok ts)
    (hok : request_resource (net (apiUrl n cs ds ts ++ c.token)) true = .ok doc) :
    get_questions net c (.int n) category difficulty _type =
      ⟨.ok (doc.results.map Question.ofRecord), c.token, [apiUrl n cs ds ts ++ c.token]⟩ ∧
    apiUrl n cs ds ts = API_URL ++ "?amount=" ++ toString n ++ cs ++ ds ++ ts ++ "&token=" ∧
    (doc.results.map Question.ofRecord).length = doc.results.length := by
  refine ⟨?_, rfl, doc.results.length_map Question.ofRecord⟩
  exact ((get_questions_int_step net c n category difficulty _type ⟨by omega, h50⟩).trans
    (get_questions_validated_step net c n category difficulty _type cs ds ts
      hcat hdif hty)).trans
    (fetch_first_ok net c (apiUrl n cs ds ts) doc hok)

/-- Witness for C7: a concrete call with `number = 2`, category `"Sports"`
and difficulty `"easy"` builds the expected url and returns the one decoded
question the service supplied. -/
theorem claim_C7_witness :
    get_questions sampleNet clientA (.int 2) (some "Sports") (some "easy") none =
      ⟨.ok [⟨"Sports", "Multiple", "Easy", "A & B?", "X", ["Y", "Z"]⟩], "tokA",
        ["https://opentdb.com/api.php?amount=2&category=21&difficulty=easy&token=tokA"]⟩ :=
  ((claim_C7 sampleNet clientA 2 (some "Sports") (some "easy") none
    "&category=21" "&difficulty=easy" "" ⟨0, [sampleRecord], ""⟩
    (by decide) (by decide) (by decide) (by decide) rfl (by decide)).1).trans (by decide)

end PyTrivia
